import Mathlib

/-!
# Verification of the mm-map Webflow CMS proxy

A shallow embedding of the repository's four source files:

* `src/proxy-fix/src/lib/fetchAllCollectionItems.ts` — the TypeScript paginator;
* `src/src/WebflowCMS.js` — the browser-side paginator (`fetchAllPages`),
  normalizer helpers (`stripHtml`, `parseCoordinates`, `geocodeLocation`,
  `parseTags`, `mapTypeAndCategory`), TTL cache (`getCachedData`,
  `setCachedData`) and the wrappers `fetchMonuments` / `fetchEcosystem`;
* `src/proxy-fix/src/pages/api/monuments.json.ts` and
  `src/proxy-fix/src/pages/api/ecosystem.json.ts` — the exposed route handlers.

JavaScript values are modelled by the inductive `JSValue`; machine floats are
modelled by `ℚ` with `NaN` a separate constructor (the numbers the code
manipulates are item counts and decimal coordinate literals, all exact in `ℚ`).
Code that can throw is modelled in `Except String`.
-/

/-- A JavaScript/JSON value, as far as this code base observes one.
`nan` is kept apart from `num` so that falsiness and `isNaN` are expressible. -/
inductive JSValue where
  | null
  | undefined
  | bool (b : Bool)
  | num (q : ℚ)
  | nan
  | str (s : String)
  | arr (xs : List JSValue)
  | obj (fields : List (String × JSValue))

/-- JavaScript truthiness: `null`, `undefined`, `false`, `0`, `NaN` and `""`
are falsy; every array and object is truthy. -/
def JSValue.truthy : JSValue → Bool
  | .null => false
  | .undefined => false
  | .bool b => b
  | .num q => decide (q ≠ 0)
  | .nan => false
  | .str s => decide (s ≠ "")
  | .arr _ => true
  | .obj _ => true

/-- `v` is `null` or `undefined` (the receivers on which property access throws,
and the values rejected by `??` and by a loose `!= null`). -/
def JSValue.nullish : JSValue → Bool
  | .null => true
  | .undefined => true
  | _ => false

/-- JavaScript `a || b`: `a` when truthy, else `b`. -/
def jsOr (a b : JSValue) : JSValue := if a.truthy then a else b

/-! ### Character-level string primitives

The JavaScript string operations the code uses — `split(',')`, `trim()`,
`includes(',')` — are re-implemented over the character list so that every
definition reduces inside the kernel. -/

/-- `String.split(',')`: pieces between the commas, in order; the empty
string yields `[""]`, as in JavaScript. -/
def splitCommaAux : List Char → List Char → List String
  | [], acc => [⟨acc.reverse⟩]
  | c :: rest, acc =>
      if c = ',' then ⟨acc.reverse⟩ :: splitCommaAux rest []
      else splitCommaAux rest (c :: acc)

/-- JavaScript `s.split(',')`. -/
def jsSplitComma (s : String) : List String := splitCommaAux s.toList []

/-- JavaScript `s.trim()`: whitespace removed from both ends. -/
def jsTrim (s : String) : String :=
  ⟨((s.toList.dropWhile Char.isWhitespace).reverse.dropWhile Char.isWhitespace).reverse⟩

/-- JavaScript `s.includes(',')` (the needle is a single character, so
substring search is character membership). -/
def jsContainsComma (s : String) : Bool := s.toList.any (fun c => c == ',')

/-- Property access `v[k]` on a receiver already known non-nullish: an object
yields the field's value (or `undefined` when absent); any other non-nullish
value has no own domain properties, so the access yields `undefined`. -/
def getPropD : JSValue → String → JSValue
  | .obj fs, k => (fs.lookup k).getD .undefined
  | _, _ => .undefined

/-- Property access `v[k]` as an expression that can throw: on a nullish
receiver JavaScript raises a `TypeError`; otherwise it is `getPropD`. -/
def JSValue.prop (v : JSValue) (k : String) : Except String JSValue :=
  if v.nullish then .error "TypeError: cannot read properties of null or undefined"
  else .ok (getPropD v k)

/-! ## `stripHtml` (WebflowCMS.js lines 153-156)

`stripHtml(html)` returns `''` on falsy input and otherwise evaluates
`html.replace(/<[^>]*>/g, '').trim()`.  Only strings have `.replace`, so a
truthy non-string input throws a `TypeError`.  The regex `<[^>]*>` removes
every maximal run from a `<` through the first following `>`; a `<` with no
later `>` matches nothing and is left verbatim. -/

/-- One pass of the global replace of `<[^>]*>` by `""`. The second argument
holds, reversed, the raw characters of a `<...` run whose closing `>` has not
been seen yet; if the input ends in that state the run was not a match and is
emitted verbatim. -/
def stripTagsAux : List Char → Option (List Char) → List Char
  | [], none => []
  | [], some pend => pend.reverse
  | c :: rest, none =>
      if c = '<' then stripTagsAux rest (some [c])
      else c :: stripTagsAux rest none
  | c :: rest, some pend =>
      if c = '>' then stripTagsAux rest none
      else stripTagsAux rest (some (c :: pend))

/-- `s.replace(/<[^>]*>/g, '')`. -/
def stripTags (s : String) : String := ⟨stripTagsAux s.toList none⟩

/-- Model of `stripHtml`. -/
def stripHtml (html : JSValue) : Except String JSValue :=
  if html.truthy = false then .ok (.str "")
  else match html with
    | .str s => .ok (.str (jsTrim (stripTags s)))
    | _ => .error "TypeError: html.replace is not a function"

/-! ## `parseTags` (WebflowCMS.js lines 217-229) -/

/-- Model of `parseTags`: falsy → `[]`; array → unchanged; string → split on
`","`, trim each piece, drop the falsy (empty) pieces; anything else → `[]`. -/
def parseTags (tags : JSValue) : JSValue :=
  if tags.truthy = false then .arr []
  else match tags with
    | .arr xs => .arr xs
    | .str s =>
        .arr ((((jsSplitComma s).map jsTrim).filter (fun t => t != "")).map .str)
    | _ => .arr []

/-! ## JavaScript string coercion of property keys

`geocodeLocation` and `mapTypeAndCategory` index plain objects, so the lookup
key is the argument coerced to a string.  The coercion is modelled for the
shapes that can reach those lookups; for an array, elements are joined with
`","` (nullish elements joining as `""`); nested arrays/objects inside an
array are approximated by `""` / their tag — no lookup table in this code has
a key such a nested value could produce, so every lookup agrees with
JavaScript.  A non-integral rational is rendered `num/den`, which likewise
matches no table key, exactly as JavaScript's decimal rendering matches none. -/

/-- String rendering of a number used as a property key. -/
def numKeyStr (q : ℚ) : String :=
  if q.den = 1 then toString q.num else toString q.num ++ "/" ++ toString q.den

/-- One array element as it appears in `Array.prototype.join(",")`. -/
def joinElemStr : JSValue → String
  | .str s => s
  | .null => ""
  | .undefined => ""
  | .bool b => cond b "true" "false"
  | .nan => "NaN"
  | .num q => numKeyStr q
  | _ => ""

/-- The string a value coerces to when used as a property key. -/
def jsKeyString : JSValue → String
  | .str s => s
  | .null => "null"
  | .undefined => "undefined"
  | .bool b => cond b "true" "false"
  | .nan => "NaN"
  | .num q => numKeyStr q
  | .obj _ => "[object Object]"
  | .arr xs => String.intercalate "," (xs.map joinElemStr)

/-! ## `geocodeLocation` (WebflowCMS.js lines 203-214) -/

/-- The static `commonLocations` table. -/
def commonLocations : List (String × ℚ × ℚ) :=
  [("New York, NY", (40.7128, -74.0060)),
   ("Washington, DC", (38.9072, -77.0369)),
   ("South Dakota", (43.9695, -99.9018)),
   ("California", (36.7783, -119.4179)),
   ("Texas", (31.9686, -99.9018)),
   ("Florida", (27.7663, -82.6404))]

/-- Model of `geocodeLocation`: `commonLocations[location] || null`. -/
def geocodeLocation (location : JSValue) : JSValue :=
  match commonLocations.lookup (jsKeyString location) with
  | some (a, b) => .arr [.num a, .num b]
  | none => .null

/-! ## `parseFloat` and `parseCoordinates` (WebflowCMS.js lines 182-200)

`parseFloat` is modelled as JavaScript defines it on finite decimal literals:
skip leading whitespace, optional sign, digits with an optional fraction and
an optional exponent, take the longest valid prefix, `NaN` (here `none`) when
no digit is found.  (`Infinity` and hex forms are not modelled; no input this
code builds produces them.) -/

/-- Optional leading sign; returns whether it was `-` and the rest. -/
def parseSign : List Char → Bool × List Char
  | '-' :: cs => (true, cs)
  | '+' :: cs => (false, cs)
  | cs => (false, cs)

/-- The natural number denoted by a digit run. -/
def digitsVal (cs : List Char) : ℕ :=
  cs.foldl (fun a c => 10 * a + (c.toNat - 48)) 0

/-- The rational denoted by a decimal literal with sign `neg`, integer part
`ip`, fraction digits worth `fv` over `fl` decimal places, and exponent `e`. -/
def decValue (neg : Bool) (ip fv fl : ℕ) (e : ℤ) : ℚ :=
  (if neg then -((ip : ℚ) + (fv : ℚ) / (10 : ℚ) ^ fl)
   else ((ip : ℚ) + (fv : ℚ) / (10 : ℚ) ^ fl)) * (10 : ℚ) ^ e

/-- Longest decimal-literal prefix of a character list: its value and the
unconsumed rest; `none` when no digit occurs where one is required. -/
def parseDecimal (cs : List Char) : Option (ℚ × List Char) :=
  let sn := parseSign cs
  let ids := sn.2.takeWhile Char.isDigit
  let cs2 := sn.2.dropWhile Char.isDigit
  let fr : List Char × List Char :=
    match cs2 with
    | '.' :: r => (r.takeWhile Char.isDigit, r.dropWhile Char.isDigit)
    | _ => ([], cs2)
  if ids.isEmpty && fr.1.isEmpty then none
  else
    let ex : Int × List Char :=
      match fr.2 with
      | 'e' :: r =>
          let esn := parseSign r
          let eds := esn.2.takeWhile Char.isDigit
          if eds.isEmpty then (0, fr.2)
          else ((if esn.1 then -(digitsVal eds : Int) else (digitsVal eds : Int)),
                esn.2.dropWhile Char.isDigit)
      | 'E' :: r =>
          let esn := parseSign r
          let eds := esn.2.takeWhile Char.isDigit
          if eds.isEmpty then (0, fr.2)
          else ((if esn.1 then -(digitsVal eds : Int) else (digitsVal eds : Int)),
                esn.2.dropWhile Char.isDigit)
      | _ => (0, fr.2)
    some (decValue sn.1 (digitsVal ids) (digitsVal fr.1) fr.1.length ex.1, ex.2)

/-- Model of JavaScript `parseFloat`; `none` stands for `NaN`. -/
def parseFloat (s : String) : Option ℚ :=
  (parseDecimal (s.toList.dropWhile Char.isWhitespace)).map (·.1)

/-- JavaScript `Number(s)` on a string: empty/whitespace-only is `0`, else
the whole string (up to surrounding whitespace) must be a decimal literal;
`none` stands for `NaN`. -/
def jsStringToNumber (s : String) : Option ℚ :=
  let cs := s.toList.dropWhile Char.isWhitespace
  match cs with
  | [] => some 0
  | _ =>
    match parseDecimal cs with
    | some r => if (r.2.dropWhile Char.isWhitespace).isEmpty then some r.1 else none
    | none => none

/-- JavaScript numeric coercion (`ToNumber`), as the relational operators
apply it; arrays and objects go through their string coercion. -/
def jsToNumber : JSValue → Option ℚ
  | .num q => some q
  | .nan => none
  | .null => some 0
  | .undefined => none
  | .bool b => some (cond b 1 0)
  | .str s => jsStringToNumber s
  | .arr xs => jsStringToNumber (jsKeyString (.arr xs))
  | .obj fs => jsStringToNumber (jsKeyString (.obj fs))

/-- `Array.isArray(v) && v.length === 2`. -/
def isArray2 : JSValue → Bool
  | .arr xs => decide (xs.length = 2)
  | _ => false

/-- `coords.length === 2 && !isNaN(coords[0]) && !isNaN(coords[1])`: the
parsed pieces qualify exactly when they are two and neither is `NaN`. -/
def coordsOfPieces : List (Option ℚ) → Option (ℚ × ℚ)
  | [some a, some b] => some (a, b)
  | _ => none

/-- Model of `parseCoordinates`: falsy → `null`; any 2-element array →
returned unchanged; a string containing `","` whose comma-separated pieces,
trimmed, both `parseFloat` to numbers (and are exactly two) → the parsed
pair; everything else falls through to `geocodeLocation`. -/
def parseCoordinates (locationData : JSValue) : JSValue :=
  if locationData.truthy = false then .null
  else if isArray2 locationData then locationData
  else match locationData with
    | .str s =>
        if jsContainsComma s then
          match coordsOfPieces ((jsSplitComma s).map (fun c => parseFloat (jsTrim c))) with
          | some (a, b) => .arr [.num a, .num b]
          | none => geocodeLocation locationData
        else geocodeLocation locationData
    | _ => geocodeLocation locationData

/-! ## `mapTypeAndCategory` (WebflowCMS.js lines 158-180) -/

/-- The static `typeMap` table. -/
def typeMap : List (String × String) :=
  [("4366ebc98f6a5310d65de8fa30194fc3", "Concept"),
   ("22d312e5d5bdb036a439464ba7db1649", "Program"),
   ("6737f113b6ca753ef687b05fe225fb03", "Organization"),
   ("1f06ba3b3460d24d4fc5a9514218ab36", "Person")]

/-- The static `categoryMap` table. -/
def categoryMap : List (String × String) :=
  [("74d298c5fdf925022955774e728ae1f9", "Concepts"),
   ("1c06d86c3ae633dbc20c19e1d1c254e4", "Programs"),
   ("422c7e052591ecf49dad28dc44a1a4c5", "Organizations"),
   ("51843361dbdbe24b3b64462d465f5a9f", "Patrons"),
   ("75a13f4fd7c61b3339c61c0a7612c0d3", "Founders")]

/-- Model of `mapTypeAndCategory`: both IDs looked up with the `||
'Unknown'` default. -/
def mapTypeAndCategory (typeId categoryId : JSValue) : String × String :=
  ((typeMap.lookup (jsKeyString typeId)).getD "Unknown",
   (categoryMap.lookup (jsKeyString categoryId)).getD "Unknown")

/-! ## The paginators

Both paginators issue `GET` requests at offsets `0, 100, 200, …`; the network
is modelled as a function from the offset to the upstream's response.  The
`while (true)` loop is given fuel; running out of fuel is reported as a
distinct outcome so that no theorem mistakes an unfinished sweep for a
finished one. -/

/-- An upstream response: either a non-ok HTTP response (carrying `status`
and the body text that `response.text()` would yield), or an ok response
whose body parsed as the given JSON value. -/
inductive UpstreamResp where
  | httpErr (status : ℕ) (body : String)
  | ok (data : JSValue)

/-- How a sweep ends: the collected items, a thrown HTTP error, a thrown
`TypeError` (body was JSON `null`), or fuel exhaustion (model artifact). -/
inductive Outcome where
  | ok (items : List JSValue)
  | httpError (msg : String)
  | typeError (msg : String)
  | outOfFuel

/-- Both paginators' fixed page size. -/
def PAGE_SIZE : ℕ := 100

/-- `data.items ?? []` from `fetchAllCollectionItems.ts`: the `items` field
if it is non-nullish, the empty array otherwise; throws only if the body
itself is nullish. -/
def extractItemsTS (data : JSValue) : Except String JSValue := do
  let v ← data.prop "items"
  pure (if v.nullish then .arr [] else v)

/-- `data.items || data` from `WebflowCMS.js`: the `items` field if truthy,
else the whole body; throws only if the body itself is nullish. -/
def extractItemsJS (data : JSValue) : Except String JSValue := do
  let v ← data.prop "items"
  pure (jsOr v data)

/-- The JavaScript value of `v.length` for a non-nullish `v`: arrays and
strings have a numeric length, an object has whatever its `length` field
holds, other primitives have none (`undefined`). Array and string lengths
are kept in `ℕ`; only an explicit `length` field is an arbitrary value. -/
inductive JSLen where
  | nat (n : ℕ)
  | val (v : JSValue)
  | absent

/-- `v.length`. -/
def jsLenOf : JSValue → JSLen
  | .arr xs => .nat xs.length
  | .str s => .nat s.toList.length
  | .obj fs => match fs.lookup "length" with
      | some v => .val v
      | none => .absent
  | _ => .absent

/-- `v.length === 0` (strict equality, no coercion). -/
def jsLenIsZero (v : JSValue) : Bool :=
  match jsLenOf v with
  | .nat n => decide (n = 0)
  | .val (.num q) => decide (q = 0)
  | .val _ => false
  | .absent => false

/-- `v.length < n` (relational comparison: both sides coerced to numbers,
`false` when either is `NaN`). -/
def jsLenLt (v : JSValue) (n : ℕ) : Bool :=
  match jsLenOf v with
  | .nat k => decide (k < n)
  | .val w => match jsToNumber w with
      | some q => decide (q < (n : ℚ))
      | none => false
  | .absent => false

/-- `allItems.concat(items)`: an array contributes its elements, any other
value is appended as a single element. -/
def jsConcat (acc : List JSValue) (v : JSValue) : List JSValue :=
  match v with
  | .arr xs => acc ++ xs
  | _ => acc ++ [v]

/-- `data.pagination?.total` (optional chaining on `pagination` only). -/
def paginationTotalTS (data : JSValue) : JSValue :=
  let p := getPropD data "pagination"
  if p.nullish then .undefined else getPropD p "total"

/-- `total != null && allItems.length >= total` (loose `!= null` rejects
exactly the nullish values; `>=` coerces `total` to a number and is `false`
on `NaN`). -/
def totalReached (len : ℕ) (total : JSValue) : Bool :=
  if total.nullish then false
  else match jsToNumber total with
    | some q => decide ((len : ℚ) ≥ q)
    | none => false

/-- `fetchAllCollectionItems` (fetchAllCollectionItems.ts lines 6-49).
Returns the outcome together with the list of offsets requested, in request
order. -/
def fetchAllTS (up : ℕ → UpstreamResp) : ℕ → ℕ → List JSValue → Outcome × List ℕ
  | 0, _, _ => (.outOfFuel, [])
  | fuel + 1, offset, acc =>
    match up offset with
    | .httpErr status body =>
        (.httpError ("Webflow API " ++ toString status ++ ": " ++ body), [offset])
    | .ok data =>
      match extractItemsTS data with
      | .error e => (.typeError e, [offset])
      | .ok items =>
        if jsLenIsZero items then (.ok acc, [offset])
        else
          let allItems := jsConcat acc items
          if totalReached allItems.length (paginationTotalTS data) then
            (.ok allItems, [offset])
          else if jsLenLt items PAGE_SIZE then (.ok allItems, [offset])
          else
            let r := fetchAllTS up fuel (offset + PAGE_SIZE) allItems
            (r.1, offset :: r.2)

/-- `fetchAllPages` (WebflowCMS.js lines 31-67).  Differences from the
TypeScript paginator: the item list must be an array (`Array.isArray`), the
error message carries only the status, and the total count is read from the
top-level `total` field. -/
def fetchAllJS (up : ℕ → UpstreamResp) : ℕ → ℕ → List JSValue → Outcome × List ℕ
  | 0, _, _ => (.outOfFuel, [])
  | fuel + 1, offset, acc =>
    match up offset with
    | .httpErr status _body =>
        (.httpError ("HTTP error! status: " ++ toString status), [offset])
    | .ok data =>
      match extractItemsJS data with
      | .error e => (.typeError e, [offset])
      | .ok items =>
        match items with
        | .arr xs =>
          if xs.length = 0 then (.ok acc, [offset])
          else
            let allItems := acc ++ xs
            if totalReached allItems.length (getPropD data "total") then
              (.ok allItems, [offset])
            else if xs.length < PAGE_SIZE then (.ok allItems, [offset])
            else
              let r := fetchAllJS up fuel (offset + PAGE_SIZE) allItems
              (r.1, offset :: r.2)
        | _ => (.ok acc, [offset])

/-! ## The normalizers (`fetchMonuments` / `fetchEcosystem` map callbacks)

Property access on a nullish item throws, modelled by the leading guard;
`fieldData` is `item.fieldData || item`, which is never nullish past that
guard, so the remaining accesses use the total `getPropD`.  The only other
throwing step is `stripHtml` on a truthy non-string description. -/

/-- The per-item mapping of `fetchMonuments` (WebflowCMS.js lines 84-101). -/
def normalizeMonument (item : JSValue) : Except String JSValue :=
  if item.nullish then .error "TypeError: cannot read properties of null or undefined"
  else
    let fieldData := jsOr (getPropD item "fieldData") item
    match stripHtml (jsOr (jsOr (getPropD fieldData "description")
        (getPropD fieldData "Description")) (.str "")) with
    | .error e => .error e
    | .ok description =>
      .ok (.obj
        [("id", jsOr (getPropD item "id") (getPropD item "_id")),
         ("name", jsOr (getPropD fieldData "name") (getPropD fieldData "Name")),
         ("status", jsOr (getPropD fieldData "status") (getPropD fieldData "Status")),
         ("location", jsOr (getPropD fieldData "location") (getPropD fieldData "Location")),
         ("coordinates", parseCoordinates (jsOr (jsOr (getPropD fieldData "locationcoords")
            (getPropD fieldData "coordinates")) (getPropD fieldData "Location"))),
         ("description", description),
         ("year", jsOr (getPropD fieldData "year") (getPropD fieldData "Year")),
         ("height", jsOr (getPropD fieldData "height") (getPropD fieldData "Height")),
         ("builtBy", jsOr (getPropD fieldData "built-by") (getPropD fieldData "Built By")),
         ("fundedBy", jsOr (getPropD fieldData "funded-by") (getPropD fieldData "Funded By")),
         ("conceptualizedBy", jsOr (getPropD fieldData "conceptualized-by")
            (getPropD fieldData "Conceptualized By")),
         ("tags", parseTags (jsOr (getPropD fieldData "tags") (getPropD fieldData "Tags"))),
         ("link", jsOr (jsOr (getPropD fieldData "link-2") (getPropD fieldData "link"))
            (getPropD fieldData "Link"))])

/-- The per-item mapping of `fetchEcosystem` (WebflowCMS.js lines 126-141). -/
def normalizeEcosystem (item : JSValue) : Except String JSValue :=
  if item.nullish then .error "TypeError: cannot read properties of null or undefined"
  else
    let fieldData := jsOr (getPropD item "fieldData") item
    let mappedTypes := mapTypeAndCategory (getPropD fieldData "type")
        (getPropD fieldData "category")
    match stripHtml (jsOr (jsOr (jsOr (getPropD fieldData "description")
        (getPropD fieldData "Description")) (getPropD fieldData "notes")) (.str "")) with
    | .error e => .error e
    | .ok description =>
      .ok (.obj
        [("id", jsOr (getPropD item "id") (getPropD item "_id")),
         ("name", jsOr (getPropD fieldData "name") (getPropD fieldData "Name")),
         ("type", .str mappedTypes.1),
         ("category", .str mappedTypes.2),
         ("association", jsOr (getPropD fieldData "association")
            (getPropD fieldData "Association")),
         ("location", jsOr (getPropD fieldData "location") (getPropD fieldData "Location")),
         ("website", jsOr (getPropD fieldData "website") (getPropD fieldData "Website")),
         ("description", description),
         ("tags", parseTags (jsOr (getPropD fieldData "tags") (getPropD fieldData "Tags")))])

/-! ## The TTL cache and the cached wrappers (WebflowCMS.js lines 12-25, 70-149)

The `Map` is modelled as an association list where `Map.set` prepends, so
`lookup` sees the newest binding.  `Date.now()` is an explicit `now`
argument; `this.cacheExpiry` is the `expiry` argument (`5 * 60 * 1000` in the
constructor).  The wrappers' producer work (`fetchAllPages` plus the `map`
over `normalize*`) happens inside `try`, so its result — success or thrown
error — is passed in as an `Except`; `monumentsProducer` /
`ecosystemProducer` below are that composition. -/

/-- A cached list with its capture timestamp. -/
structure CacheEntry where
  data : List JSValue
  timestamp : ℕ

/-- `this.cache`. -/
abbrev Cache := List (String × CacheEntry)

/-- The constructor's `cacheExpiry` value: 5 minutes in milliseconds. -/
def cacheExpiryDefault : ℕ := 5 * 60 * 1000

/-- `getCachedData` (lines 12-18): the entry's data if one exists and is
fresh, else `null` (here `none`). -/
def getCachedData (expiry : ℕ) (cache : Cache) (now : ℕ) (key : String) :
    Option (List JSValue) :=
  match cache.lookup key with
  | some e => if now - e.timestamp < expiry then some e.data else none
  | none => none

/-- `setCachedData` (lines 20-25): store `data` under `key` with the current
timestamp, superseding any previous binding. -/
def setCachedData (cache : Cache) (now : ℕ) (key : String) (data : List JSValue) :
    Cache :=
  (key, ⟨data, now⟩) :: cache

/-- `fetchMonuments` (lines 70-110).  Returns the result, the new cache, and
whether the producer was invoked.  The result is an `Except` to make "the
failure propagates" expressible: the `catch` branch yields `.ok []`, never
`.error`. -/
def fetchMonumentsModel (expiry : ℕ) (cache : Cache) (now : ℕ)
    (produced : Except String (List JSValue)) :
    Except String (List JSValue) × Cache × Bool :=
  match getCachedData expiry cache now "monuments" with
  | some cachedData => (.ok cachedData, cache, false)
  | none =>
    match produced with
    | .ok processedData =>
        (.ok processedData, setCachedData cache now "monuments" processedData, true)
    | .error _ => (.ok [], cache, true)

/-- `fetchEcosystem` (lines 113-149): same shape under the key
`"ecosystem"`. -/
def fetchEcosystemModel (expiry : ℕ) (cache : Cache) (now : ℕ)
    (produced : Except String (List JSValue)) :
    Except String (List JSValue) × Cache × Bool :=
  match getCachedData expiry cache now "ecosystem" with
  | some cachedData => (.ok cachedData, cache, false)
  | none =>
    match produced with
    | .ok processedData =>
        (.ok processedData, setCachedData cache now "ecosystem" processedData, true)
    | .error _ => (.ok [], cache, true)

/-- The monuments producer: the sweep followed by the per-item mapping, as
performed inside `fetchMonuments`'s `try` block. -/
def monumentsProducer (up : ℕ → UpstreamResp) (fuel : ℕ) :
    Except String (List JSValue) :=
  match fetchAllJS up fuel 0 [] with
  | (.ok items, _) => items.mapM normalizeMonument
  | (.httpError m, _) => .error m
  | (.typeError m, _) => .error m
  | (.outOfFuel, _) => .error "out of fuel"

/-- The ecosystem producer, as inside `fetchEcosystem`'s `try` block. -/
def ecosystemProducer (up : ℕ → UpstreamResp) (fuel : ℕ) :
    Except String (List JSValue) :=
  match fetchAllJS up fuel 0 [] with
  | (.ok items, _) => items.mapM normalizeEcosystem
  | (.httpError m, _) => .error m
  | (.typeError m, _) => .error m
  | (.outOfFuel, _) => .error "out of fuel"

/-! ## The exposed route handlers
(`monuments.json.ts` / `ecosystem.json.ts`, each lines 4-37)

The environment values and the sweep result are the handlers' inputs; the
body is the value passed to `JSON.stringify`. -/

/-- An HTTP response as the route handlers build one. -/
structure HttpResp where
  status : ℕ
  headers : List (String × String)
  body : JSValue

/-- The headers of every 200 response. -/
def successHeaders : List (String × String) :=
  [("Content-Type", "application/json"),
   ("Access-Control-Allow-Origin", "*"),
   ("Access-Control-Allow-Methods", "GET"),
   ("Access-Control-Allow-Headers", "Content-Type"),
   ("Cache-Control", "max-age=3600")]

/-- `GET` of `monuments.json.ts`. -/
def monumentsGET (token collectionId : JSValue)
    (sweep : Except String (List JSValue)) : HttpResp :=
  if !token.truthy || !collectionId.truthy then
    ⟨500, [("Content-Type", "application/json")],
      .obj [("error", .str "Missing API credentials")]⟩
  else match sweep with
    | .ok items => ⟨200, successHeaders, .obj [("items", .arr items)]⟩
    | .error _ => ⟨500, [("Content-Type", "application/json")],
        .obj [("error", .str "Failed to fetch monuments")]⟩

/-- `GET` of `ecosystem.json.ts`. -/
def ecosystemGET (token collectionId : JSValue)
    (sweep : Except String (List JSValue)) : HttpResp :=
  if !token.truthy || !collectionId.truthy then
    ⟨500, [("Content-Type", "application/json")],
      .obj [("error", .str "Missing API credentials")]⟩
  else match sweep with
    | .ok items => ⟨200, successHeaders, .obj [("items", .arr items)]⟩
    | .error _ => ⟨500, [("Content-Type", "application/json")],
        .obj [("error", .str "Failed to fetch ecosystem")]⟩

/-! ## Auxiliary definitions for the statements

Page constructors for well-formed bodies, placeholder items, per-request
contribution functions and the mock upstream used by the end-to-end run. -/

/-- `v` is a string or falsy — the inputs on which `stripHtml` cannot throw. -/
def strOrFalsy (v : JSValue) : Prop := v.truthy = false ∨ ∃ s, v = .str s

/-- A well-formed page body for the TypeScript paginator: an `items` array
and, optionally, a `pagination.total` count. -/
def mkPageTS (xs : List JSValue) (total : Option ℚ) : JSValue :=
  .obj (("items", .arr xs) ::
    (match total with
     | some n => [("pagination", .obj [("total", .num n)])]
     | none => []))

/-- A well-formed page body for the JS paginator: an `items` array and,
optionally, a top-level `total` count. -/
def mkPageJS (xs : List JSValue) (total : Option ℚ) : JSValue :=
  .obj (("items", .arr xs) ::
    (match total with
     | some n => [("total", .num n)]
     | none => []))

/-- Pages of distinct placeholder items: `pageItems start len` holds the
numbers `start, …, start+len-1`. -/
def pageItems (start len : ℕ) : List JSValue :=
  (List.range' start len).map (fun (i : ℕ) => JSValue.num (i : ℚ))

/-- What one request at offset `o` contributes to the TypeScript paginator's
output: nothing on an error or an empty item list, else the extracted items
(an array's elements; a non-array item value as a single element, as
`concat` appends it). -/
def contribTS (up : ℕ → UpstreamResp) (o : ℕ) : List JSValue :=
  match up o with
  | .httpErr _ _ => []
  | .ok data =>
    match extractItemsTS data with
    | .error _ => []
    | .ok items => if jsLenIsZero items then [] else jsConcat [] items

/-- What one request contributes to the JS paginator's output: nothing on an
error or a non-array item list, else the array's elements. -/
def contribJS (up : ℕ → UpstreamResp) (o : ℕ) : List JSValue :=
  match up o with
  | .httpErr _ _ => []
  | .ok data =>
    match extractItemsJS data with
    | .error _ => []
    | .ok (.arr xs) => xs
    | .ok _ => []

/-- The 3-page mock upstream of the end-to-end test: pages of 100, 100 and
37 items at offsets 0, 100 and 200, no `total` field. -/
def upstream3 : ℕ → UpstreamResp := fun o =>
  if o = 0 then .ok (mkPageTS (pageItems 0 100) none)
  else if o = 100 then .ok (mkPageTS (pageItems 100 100) none)
  else if o = 200 then .ok (mkPageTS (pageItems 200 37) none)
  else .ok (mkPageTS [] none)

/-- An upstream whose first page is full and successful and whose second
request (offset 100) answers 500: a mid-sweep failure. -/
def upMidFail : ℕ → UpstreamResp := fun o =>
  if o = 0 then .ok (mkPageTS (pageItems 0 100) none)
  else .httpErr 500 "oops"


/-! # Shared lemmas -/

/-- A truthy value is not nullish. -/
lemma not_nullish_of_truthy {v : JSValue} (h : v.truthy = true) : v.nullish = false := by
  cases v <;> simp_all [JSValue.truthy, JSValue.nullish]

lemma stripHtml_isOk {v : JSValue} (h : strOrFalsy v) : (stripHtml v).isOk = true := by
  rcases h with h | ⟨s, rfl⟩
  · simp only [stripHtml, h, if_true]
    rfl
  · unfold stripHtml
    split
    · rfl
    · split <;> rfl

lemma jsOr_strOrFalsy {a b : JSValue} (ha : strOrFalsy a) (hb : strOrFalsy b) :
    strOrFalsy (jsOr a b) := by
  unfold jsOr
  split <;> assumption

lemma strOrFalsy_str (s : String) : strOrFalsy (.str s) := Or.inr ⟨s, rfl⟩

lemma nullish_obj (fs : List (String × JSValue)) : (JSValue.obj fs).nullish = false := rfl

/-! # Claim C9 — `parseTags` -/

/-- C9: `parseTags` returns an array unchanged; splits a string on `","`,
trims each piece and drops empty pieces (so `"a, b ,c"` gives
`["a","b","c"]`); and yields the empty array on every other input,
`undefined` included. -/
theorem c9_parseTags_spec :
    (∀ xs : List JSValue, parseTags (.arr xs) = .arr xs) ∧
    (∀ s : String,
      parseTags (.str s) =
        .arr ((((jsSplitComma s).map jsTrim).filter (fun t => t != "")).map JSValue.str)) ∧
    (parseTags (.str "a, b ,c") = .arr [.str "a", .str "b", .str "c"]) ∧
    (∀ v : JSValue, (∀ xs, v ≠ .arr xs) → (∀ s, v ≠ .str s) → parseTags v = .arr []) := by
  refine ⟨fun xs => by simp [parseTags, JSValue.truthy], fun s => ?_, by rfl, fun v h1 h2 => ?_⟩
  · by_cases h : s = ""
    · subst h; rfl
    · simp [parseTags, JSValue.truthy, h]
  · cases v with
    | arr xs => exact absurd rfl (h1 xs)
    | str s => exact absurd rfl (h2 s)
    | bool b => cases b <;> simp [parseTags, JSValue.truthy]
    | num q =>
        by_cases h : q = 0 <;> simp [parseTags, JSValue.truthy, h]
    | obj fs => simp [parseTags, JSValue.truthy]
    | _ => simp [parseTags, JSValue.truthy]

/-- Witness for C9 at a concrete non-array, non-string input. -/
theorem c9_parseTags_spec_witness : parseTags (.num 1) = .arr [] :=
  c9_parseTags_spec.2.2.2 (.num 1) (fun _ h => JSValue.noConfusion h)
    (fun _ h => JSValue.noConfusion h)

/-! # Claim C2 — `parseCoordinates` -/

/-- C2 counterexample: a 2-element array of non-numeric strings *does* pass
through `parseCoordinates` unchanged (the code checks only
`Array.isArray && length === 2`), contradicting the claim that it would fall
back to the lookup table. -/
theorem c2_coords_counterexample :
    parseCoordinates (.arr [.str "40.7", .str "-74.0"]) =
      .arr [.str "40.7", .str "-74.0"] ∧
    parseCoordinates (.arr [.str "40.7", .str "-74.0"]) ≠ .null := by
  exact ⟨rfl, by simp [show parseCoordinates (.arr [.str "40.7", .str "-74.0"]) =
    .arr [.str "40.7", .str "-74.0"] from rfl]⟩

/-- C2 as amended: a `"<lat>,<lng>"` string whose two comma-separated pieces
both parse as numbers yields the parsed pair; *any* 2-element array (numeric
or not) passes through unchanged; any other truthy input — a comma-free
string, a comma string whose pieces do not both parse, a non-string
non-2-array — falls back to `geocodeLocation`, which yields `null` whenever
the coerced key is not in the table. -/
theorem c2_parseCoordinates_amended :
    (∀ (s : String) (a b : ℚ), jsContainsComma s = true →
      coordsOfPieces ((jsSplitComma s).map (fun c => parseFloat (jsTrim c))) = some (a, b) →
      parseCoordinates (.str s) = .arr [.num a, .num b]) ∧
    (∀ xs : List JSValue, xs.length = 2 → parseCoordinates (.arr xs) = .arr xs) ∧
    (∀ s : String, s ≠ "" → jsContainsComma s = false →
      parseCoordinates (.str s) = geocodeLocation (.str s)) ∧
    (∀ s : String, jsContainsComma s = true →
      coordsOfPieces ((jsSplitComma s).map (fun c => parseFloat (jsTrim c))) = none →
      parseCoordinates (.str s) = geocodeLocation (.str s)) ∧
    (∀ v : JSValue, commonLocations.lookup (jsKeyString v) = none →
      geocodeLocation v = .null) := by
  refine ⟨fun s a b hc hm => ?_, fun xs h => ?_, fun s hs hc => ?_,
    fun s hc hm => ?_, fun v h => ?_⟩
  · have hs : s ≠ "" := by
      rintro rfl
      exact absurd hc (by decide)
    simp [parseCoordinates, JSValue.truthy, hs, isArray2, hc, hm]
  · simp [parseCoordinates, JSValue.truthy, isArray2, h]
  · simp [parseCoordinates, JSValue.truthy, hs, isArray2, hc]
  · have hs : s ≠ "" := by
      rintro rfl
      exact absurd hc (by decide)
    simp [parseCoordinates, JSValue.truthy, hs, isArray2, hc, hm]
  · simp [geocodeLocation, h]

/-- Witness for C2 at `"40.7,-74.0"`, whose pieces parse to `40.7` and
`-74.0`. -/
theorem c2_parseCoordinates_amended_witness :
    parseCoordinates (.str "40.7,-74.0") =
      .arr [.num (decValue false 40 7 1 0), .num (decValue true 74 0 1 0)] ∧
    decValue false 40 7 1 0 = (40.7 : ℚ) ∧ decValue true 74 0 1 0 = (-74.0 : ℚ) :=
  ⟨c2_parseCoordinates_amended.1 "40.7,-74.0" (decValue false 40 7 1 0)
      (decValue true 74 0 1 0) (by decide) rfl,
    by norm_num [decValue], by norm_num [decValue]⟩

/-! # Claim C6 — normalization never raises -/

/-- C6 counterexample: a raw item whose `description` field holds the number
`42` (truthy, not a string) makes the monument normalization throw a
`TypeError` inside `stripHtml` — the transform is not error-free on
malformed fields. -/
theorem c6_normalize_counterexample :
    normalizeMonument (.obj [("fieldData", .obj [("description", .num 42)])]) =
      .error "TypeError: html.replace is not a function" ∧
    normalizeEcosystem (.obj [("fieldData", .obj [("description", .num 42)])]) =
      .error "TypeError: html.replace is not a function" := ⟨rfl, rfl⟩

/-- C6 as amended: for both collection kinds the normalization transform
never raises *provided* the raw item is not nullish and its
description-bearing fields (`description`, `Description`, and `notes` for
the ecosystem kind) are strings or falsy; absent or otherwise-malformed
fields degrade to `undefined`, `null` or empty containers.  (A nullish item,
or a truthy non-string description, does raise — see the counterexample.) -/
theorem c6_normalize_amended (item : JSValue) (h0 : item.nullish = false)
    (h1 : strOrFalsy (getPropD (jsOr (getPropD item "fieldData") item) "description"))
    (h2 : strOrFalsy (getPropD (jsOr (getPropD item "fieldData") item) "Description"))
    (h3 : strOrFalsy (getPropD (jsOr (getPropD item "fieldData") item) "notes")) :
    (normalizeMonument item).isOk = true ∧ (normalizeEcosystem item).isOk = true := by
  constructor
  · have hd : strOrFalsy (jsOr (jsOr (getPropD (jsOr (getPropD item "fieldData") item)
        "description") (getPropD (jsOr (getPropD item "fieldData") item) "Description"))
        (.str "")) :=
      jsOr_strOrFalsy (jsOr_strOrFalsy h1 h2) (strOrFalsy_str "")
    have hOk := stripHtml_isOk hd
    unfold normalizeMonument
    simp only [h0, Bool.false_eq_true, if_false]
    rcases h : stripHtml (jsOr (jsOr (getPropD (jsOr (getPropD item "fieldData") item)
        "description") (getPropD (jsOr (getPropD item "fieldData") item) "Description"))
        (.str "")) with e | d
    · rw [h] at hOk
      exact Bool.noConfusion hOk
    · rfl
  · have hd : strOrFalsy (jsOr (jsOr (jsOr (getPropD (jsOr (getPropD item "fieldData") item)
        "description") (getPropD (jsOr (getPropD item "fieldData") item) "Description"))
        (getPropD (jsOr (getPropD item "fieldData") item) "notes")) (.str "")) :=
      jsOr_strOrFalsy (jsOr_strOrFalsy (jsOr_strOrFalsy h1 h2) h3) (strOrFalsy_str "")
    have hOk := stripHtml_isOk hd
    unfold normalizeEcosystem
    simp only [h0, Bool.false_eq_true, if_false]
    rcases h : stripHtml (jsOr (jsOr (jsOr (getPropD (jsOr (getPropD item "fieldData") item)
        "description") (getPropD (jsOr (getPropD item "fieldData") item) "Description"))
        (getPropD (jsOr (getPropD item "fieldData") item) "notes")) (.str "")) with e | d
    · rw [h] at hOk
      exact Bool.noConfusion hOk
    · rfl

/-- Witness for C6 at a benign concrete item. -/
theorem c6_normalize_amended_witness :
    (normalizeMonument (.obj [("fieldData",
        .obj [("description", .str "<p>Hi</p>")])])).isOk = true ∧
    (normalizeEcosystem (.obj [("fieldData",
        .obj [("description", .str "<p>Hi</p>")])])).isOk = true :=
  c6_normalize_amended _ rfl (Or.inr ⟨"<p>Hi</p>", rfl⟩) (Or.inl rfl) (Or.inl rfl)

/-! # Claim C10 — error responses carry no CORS headers -/

/-- C10: every 500 response of either route handler (missing credentials or
failed sweep) carries exactly the `Content-Type: application/json` header —
in particular none of the three CORS headers — while every 200 response
carries all three. -/
theorem c10_headers (token cid : JSValue) (sweep : Except String (List JSValue)) :
    ((monumentsGET token cid sweep).status = 500 →
      (monumentsGET token cid sweep).headers = [("Content-Type", "application/json")]) ∧
    ((monumentsGET token cid sweep).status = 200 →
      ("Access-Control-Allow-Origin", "*") ∈ (monumentsGET token cid sweep).headers ∧
      ("Access-Control-Allow-Methods", "GET") ∈ (monumentsGET token cid sweep).headers ∧
      ("Access-Control-Allow-Headers", "Content-Type") ∈
        (monumentsGET token cid sweep).headers) ∧
    ((ecosystemGET token cid sweep).status = 500 →
      (ecosystemGET token cid sweep).headers = [("Content-Type", "application/json")]) ∧
    ((ecosystemGET token cid sweep).status = 200 →
      ("Access-Control-Allow-Origin", "*") ∈ (ecosystemGET token cid sweep).headers ∧
      ("Access-Control-Allow-Methods", "GET") ∈ (ecosystemGET token cid sweep).headers ∧
      ("Access-Control-Allow-Headers", "Content-Type") ∈
        (ecosystemGET token cid sweep).headers) := by
  unfold monumentsGET ecosystemGET
  split
  · simp
  · rcases sweep with items | e <;> simp [successHeaders]

/-- Witness for C10: with no credentials the handler answers 500 with only
the content-type header. -/
theorem c10_headers_witness :
    (monumentsGET .undefined .undefined (.ok [])).headers =
      [("Content-Type", "application/json")] :=
  (c10_headers .undefined .undefined (.ok [])).1 rfl

/-! # Claim C3 — wrapper behaviour when the producer fails -/

/-- C3 counterexample: when the producer fails, `fetchMonuments` does *not*
propagate the failure — the `catch` branch returns the empty list — though
it indeed writes no cache entry. -/
theorem c3_catch_counterexample :
    fetchMonumentsModel cacheExpiryDefault [] 0 (.error "boom") = (.ok [], [], true) ∧
    (fetchMonumentsModel cacheExpiryDefault [] 0 (.error "boom")).1 ≠
      .error "boom" := by
  refine ⟨rfl, ?_⟩
  rw [show fetchMonumentsModel cacheExpiryDefault [] 0 (.error "boom") =
    (.ok [], [], true) from rfl]
  simp

/-- C3 as amended: on a cache miss with a failing producer, either wrapper
catches the failure and returns `.ok []` (no propagation), leaves the cache
exactly as it was (no entry written), and reports the producer as invoked. -/
theorem c3_producer_failure_amended (expiry : ℕ) (cache : Cache) (now : ℕ) (e : String)
    (hm : getCachedData expiry cache now "monuments" = none)
    (he : getCachedData expiry cache now "ecosystem" = none) :
    fetchMonumentsModel expiry cache now (.error e) = (.ok [], cache, true) ∧
    fetchEcosystemModel expiry cache now (.error e) = (.ok [], cache, true) := by
  constructor
  · unfold fetchMonumentsModel
    rw [hm]
  · unfold fetchEcosystemModel
    rw [he]

/-- Witness for C3 on the empty cache. -/
theorem c3_producer_failure_amended_witness :
    fetchMonumentsModel cacheExpiryDefault [] 7 (.error "oops") = (.ok [], [], true) ∧
    fetchEcosystemModel cacheExpiryDefault [] 7 (.error "oops") = (.ok [], [], true) :=
  c3_producer_failure_amended cacheExpiryDefault [] 7 "oops" rfl rfl

/-! # Claim C4 — where the item list comes from -/

/-- C4 counterexample: on a body with no `items` field the TypeScript
paginator takes the *empty list*, not the whole body (`data.items ?? []`),
contradicting the claim that the paginator would treat the whole body as
the item list. -/
theorem c4_extract_counterexample :
    extractItemsTS (.arr [.str "x"]) = .ok (.arr []) ∧
    JSValue.arr [] ≠ JSValue.arr [.str "x"] := by
  refine ⟨rfl, ?_⟩
  simp

/-- C4 as amended: on a truthy `items` field both paginators use that field;
when the field is absent or nullish, the JS paginator (`fetchAllPages`)
falls back to the whole body while the TypeScript paginator
(`fetchAllCollectionItems`) uses the empty list, never the whole body; on a
falsy-but-non-nullish `items` value (`0`, `""`, `false`) the JS paginator
again takes the whole body while the TypeScript paginator keeps the field's
value. -/
theorem c4_extract_amended :
    (∀ (fs : List (String × JSValue)) (v : JSValue),
      fs.lookup "items" = some v → v.truthy = true →
      extractItemsJS (.obj fs) = .ok v ∧ extractItemsTS (.obj fs) = .ok v) ∧
    (∀ fs : List (String × JSValue), fs.lookup "items" = none →
      extractItemsJS (.obj fs) = .ok (.obj fs) ∧
      extractItemsTS (.obj fs) = .ok (.arr [])) ∧
    (∀ (fs : List (String × JSValue)) (v : JSValue),
      fs.lookup "items" = some v → v.nullish = true →
      extractItemsJS (.obj fs) = .ok (.obj fs) ∧
      extractItemsTS (.obj fs) = .ok (.arr [])) ∧
    (∀ (fs : List (String × JSValue)) (v : JSValue),
      fs.lookup "items" = some v → v.truthy = false → v.nullish = false →
      extractItemsJS (.obj fs) = .ok (.obj fs) ∧
      extractItemsTS (.obj fs) = .ok v) := by
  refine ⟨fun fs v hl ht => ?_, fun fs hl => ?_, fun fs v hl hn => ?_,
    fun fs v hl ht hn => ?_⟩
  · have hn := not_nullish_of_truthy ht
    simp [extractItemsJS, extractItemsTS, JSValue.prop, nullish_obj, getPropD,
      hl, jsOr, ht, hn]
  · simp [extractItemsJS, extractItemsTS, JSValue.prop, JSValue.nullish, getPropD,
      hl, jsOr, JSValue.truthy]
  · have ht : v.truthy = false := by
      cases v <;> simp_all [JSValue.nullish, JSValue.truthy]
    simp [extractItemsJS, extractItemsTS, JSValue.prop, nullish_obj, getPropD,
      hl, jsOr, ht, hn]
  · simp [extractItemsJS, extractItemsTS, JSValue.prop, nullish_obj, getPropD,
      hl, jsOr, ht, hn]

/-- Witness for C4 on a body whose `items` field holds a 1-element array. -/
theorem c4_extract_amended_witness :
    extractItemsJS (.obj [("items", .arr [.num 1])]) = .ok (.arr [.num 1]) ∧
    extractItemsTS (.obj [("items", .arr [.num 1])]) = .ok (.arr [.num 1]) :=
  c4_extract_amended.1 [("items", .arr [.num 1])] (.arr [.num 1]) rfl rfl

/-! # Claim C5 — TTL cache semantics -/

/-- C5: a lookup hits exactly when an entry exists and `now - timestamp` is
strictly below the TTL; the wrapper invokes the producer exactly when the
lookup misses; hence in a first-miss/second-fresh/third-expired run the
producer runs on calls one and three only, the second call returns the
stored list unchanged, and the third overwrites the entry with a fresh
timestamp. -/
theorem c5_cache_spec :
    (∀ (expiry : ℕ) (cache : Cache) (now : ℕ) (key : String) (d : List JSValue),
      getCachedData expiry cache now key = some d ↔
        ∃ e, cache.lookup key = some e ∧ now - e.timestamp < expiry ∧ d = e.data) ∧
    (∀ (expiry : ℕ) (cache : Cache) (now : ℕ) (produced : Except String (List JSValue)),
      (fetchMonumentsModel expiry cache now produced).2.2 =
        (getCachedData expiry cache now "monuments").isNone) ∧
    (∀ (expiry : ℕ) (cache : Cache) (t1 t2 t3 : ℕ) (xs ys : List JSValue)
        (p2 : Except String (List JSValue)),
      getCachedData expiry cache t1 "monuments" = none →
      t2 - t1 < expiry →
      expiry ≤ t3 - t1 →
      (fetchMonumentsModel expiry cache t1 (.ok xs)).2.2 = true ∧
      fetchMonumentsModel expiry (fetchMonumentsModel expiry cache t1 (.ok xs)).2.1 t2 p2 =
        (.ok xs, (fetchMonumentsModel expiry cache t1 (.ok xs)).2.1, false) ∧
      (fetchMonumentsModel expiry
          (fetchMonumentsModel expiry
            (fetchMonumentsModel expiry cache t1 (.ok xs)).2.1 t2 p2).2.1 t3 (.ok ys)).2.2 =
        true ∧
      (fetchMonumentsModel expiry
          (fetchMonumentsModel expiry
            (fetchMonumentsModel expiry cache t1 (.ok xs)).2.1 t2 p2).2.1 t3
          (.ok ys)).2.1.lookup "monuments" = some ⟨ys, t3⟩) := by
  refine ⟨fun expiry cache now key d => ?_, fun expiry cache now produced => ?_,
    fun expiry cache t1 t2 t3 xs ys p2 h1 h2 h3 => ?_⟩
  · unfold getCachedData
    rcases hl : cache.lookup key with _ | e
    · simp
    · by_cases hf : now - e.timestamp < expiry
      · simp only [hf, if_true, Option.some.injEq]
        constructor
        · rintro rfl
          exact ⟨e, rfl, hf, rfl⟩
        · rintro ⟨e1, he1, _, rfl⟩
          cases he1
          rfl
      · simp only [hf, if_false, Bool.false_eq_true, reduceIte]
        constructor
        · rintro h
          exact absurd h (by simp)
        · rintro ⟨e1, he1, hfresh, rfl⟩
          cases he1
          exact absurd hfresh hf
  · unfold fetchMonumentsModel
    rcases getCachedData expiry cache now "monuments" with _ | d
    · rcases produced with e | xs <;> rfl
    · rfl
  · have hc1 : fetchMonumentsModel expiry cache t1 (.ok xs) =
        (.ok xs, ("monuments", ⟨xs, t1⟩) :: cache, true) := by
      unfold fetchMonumentsModel
      rw [h1]
      rfl
    have hget2 : getCachedData expiry (("monuments", ⟨xs, t1⟩) :: cache) t2 "monuments" =
        some xs := by
      unfold getCachedData
      simp [List.lookup, h2]
    have hc2 : fetchMonumentsModel expiry (("monuments", ⟨xs, t1⟩) :: cache) t2 p2 =
        (.ok xs, ("monuments", ⟨xs, t1⟩) :: cache, false) := by
      unfold fetchMonumentsModel
      rw [hget2]
    have hget3 : getCachedData expiry (("monuments", ⟨xs, t1⟩) :: cache) t3 "monuments" =
        none := by
      unfold getCachedData
      simp [List.lookup, Nat.not_lt.mpr h3]
    have hc3 : fetchMonumentsModel expiry (("monuments", ⟨xs, t1⟩) :: cache) t3 (.ok ys) =
        (.ok ys, ("monuments", ⟨ys, t3⟩) :: ("monuments", ⟨xs, t1⟩) :: cache, true) := by
      unfold fetchMonumentsModel
      rw [hget3]
      rfl
    simp only [hc1, hc2, hc3, List.lookup]
    simp

/-- Witness for C5 on the empty cache with TTL 300000 and calls at times 0,
1 and 300000. -/
theorem c5_cache_spec_witness :
    (fetchMonumentsModel cacheExpiryDefault [] 0 (.ok [.str "m"])).2.2 = true ∧
    fetchMonumentsModel cacheExpiryDefault
        (fetchMonumentsModel cacheExpiryDefault [] 0 (.ok [.str "m"])).2.1 1
        (.error "unused") =
      (.ok [.str "m"],
        (fetchMonumentsModel cacheExpiryDefault [] 0 (.ok [.str "m"])).2.1, false) ∧
    (fetchMonumentsModel cacheExpiryDefault
        (fetchMonumentsModel cacheExpiryDefault
          (fetchMonumentsModel cacheExpiryDefault [] 0 (.ok [.str "m"])).2.1 1
          (.error "unused")).2.1 300000 (.ok [])).2.2 = true ∧
    (fetchMonumentsModel cacheExpiryDefault
        (fetchMonumentsModel cacheExpiryDefault
          (fetchMonumentsModel cacheExpiryDefault [] 0 (.ok [.str "m"])).2.1 1
          (.error "unused")).2.1 300000 (.ok [])).2.1.lookup "monuments" =
      some ⟨[], 300000⟩ :=
  c5_cache_spec.2.2 cacheExpiryDefault [] 0 1 300000 [.str "m"] [] (.error "unused")
    rfl (by decide) (by decide)

/-! # Claim C8 — failure on a non-success HTTP status -/

/-- C8 counterexample: on a 500 with body `"oops"`, the JS paginator
(`fetchAllPages`) fails with `"HTTP error! status: 500"` — the response body
text does not occur in the message, contradicting the claim that the error
contains both the status code and the body. -/
theorem c8_httpError_counterexample :
    fetchAllJS (fun _ => .httpErr 500 "oops") 1 0 [] =
      (.httpError "HTTP error! status: 500", [0]) ∧
    ¬ "oops".toList <:+: "HTTP error! status: 500".toList := by
  exact ⟨rfl, by decide⟩

lemma fetchAllTS_httpError_last (up : ℕ → UpstreamResp) :
    ∀ (fuel offset : ℕ) (acc : List JSValue) (msg : String) (reqs : List ℕ),
      fetchAllTS up fuel offset acc = (.httpError msg, reqs) →
      ∃ (pre : List ℕ) (status : ℕ) (body : String) (o : ℕ),
        reqs = pre ++ [o] ∧ up o = .httpErr status body ∧
        (∀ p ∈ pre, ∃ d, up p = .ok d) ∧
        msg = "Webflow API " ++ toString status ++ ": " ++ body := by
  intro fuel
  induction fuel with
  | zero =>
    intro offset acc msg reqs h
    simp [fetchAllTS] at h
  | succ n ih =>
    intro offset acc msg reqs h
    simp only [fetchAllTS] at h
    rcases hup : up offset with ⟨status, body⟩ | ⟨data⟩
    · rw [hup] at h
      dsimp only at h
      injection h with h1 h2
      injection h1 with h1
      exact ⟨[], status, body, offset, by rw [← h2]; rfl, hup, by simp, h1.symm⟩
    · rw [hup] at h
      dsimp only at h
      rcases hex : extractItemsTS data with ⟨e⟩ | ⟨items⟩
      · rw [hex] at h
        simp at h
      · rw [hex] at h
        dsimp only at h
        split at h
        · simp at h
        · split at h
          · simp at h
          · split at h
            · simp at h
            · rcases hfr : fetchAllTS up n (offset + PAGE_SIZE) (jsConcat acc items)
                with ⟨o1, l1⟩
              rw [hfr] at h
              injection h with h1 h2
              have hout : o1 = Outcome.httpError msg := h1
              rw [hout] at hfr
              obtain ⟨pre, status, body, o, hreqs, ho, hpre, hmsg⟩ :=
                ih (offset + PAGE_SIZE) (jsConcat acc items) msg l1 hfr
              refine ⟨offset :: pre, status, body, o, ?_, ho, ?_, hmsg⟩
              · rw [← h2, hreqs]
                rfl
              · intro p hp
                rcases List.mem_cons.mp hp with rfl | hp
                · exact ⟨data, hup⟩
                · exact hpre p hp

lemma fetchAllJS_httpError_last (up : ℕ → UpstreamResp) :
    ∀ (fuel offset : ℕ) (acc : List JSValue) (msg : String) (reqs : List ℕ),
      fetchAllJS up fuel offset acc = (.httpError msg, reqs) →
      ∃ (pre : List ℕ) (status : ℕ) (body : String) (o : ℕ),
        reqs = pre ++ [o] ∧ up o = .httpErr status body ∧
        (∀ p ∈ pre, ∃ d, up p = .ok d) ∧
        msg = "HTTP error! status: " ++ toString status := by
  intro fuel
  induction fuel with
  | zero =>
    intro offset acc msg reqs h
    simp [fetchAllJS] at h
  | succ n ih =>
    intro offset acc msg reqs h
    simp only [fetchAllJS] at h
    rcases hup : up offset with ⟨status, body⟩ | ⟨data⟩
    · rw [hup] at h
      dsimp only at h
      injection h with h1 h2
      injection h1 with h1
      exact ⟨[], status, body, offset, by rw [← h2]; rfl, hup, by simp, h1.symm⟩
    · rw [hup] at h
      dsimp only at h
      rcases hex : extractItemsJS data with ⟨e⟩ | ⟨items⟩
      · rw [hex] at h
        simp at h
      · rw [hex] at h
        dsimp only at h
        split at h
        · rename_i xs
          split at h
          · simp at h
          · split at h
            · simp at h
            · split at h
              · simp at h
              · rcases hfr : fetchAllJS up n (offset + PAGE_SIZE) (acc ++ xs)
                  with ⟨o1, l1⟩
                rw [hfr] at h
                injection h with h1 h2
                have hout : o1 = Outcome.httpError msg := h1
                rw [hout] at hfr
                obtain ⟨pre, status, body, o, hreqs, ho, hpre, hmsg⟩ :=
                  ih (offset + PAGE_SIZE) (acc ++ xs) msg l1 hfr
                refine ⟨offset :: pre, status, body, o, ?_, ho, ?_, hmsg⟩
                · rw [← h2, hreqs]
                  rfl
                · intro p hp
                  rcases List.mem_cons.mp hp with rfl | hp
                  · exact ⟨data, hup⟩
                  · exact hpre p hp
        · simp at h

/-- C8 as amended: when *any* page request of a sweep returns a non-success
status, each paginator throws at once — at any offset and accumulator the
failing request is the only one issued from that point, and, conversely, any
sweep that ends in an HTTP error made its failing request *last* (no retry,
no further requests) after only successful requests.  The TypeScript
paginator's message contains both the status code and the response body
text; the JS paginator's message contains only the status code. -/
theorem c8_httpError_amended :
    (∀ (up : ℕ → UpstreamResp) (fuel offset : ℕ) (acc : List JSValue)
        (status : ℕ) (body : String), up offset = .httpErr status body →
      fetchAllTS up (fuel + 1) offset acc =
        (.httpError ("Webflow API " ++ toString status ++ ": " ++ body), [offset]) ∧
      fetchAllJS up (fuel + 1) offset acc =
        (.httpError ("HTTP error! status: " ++ toString status), [offset])) ∧
    (∀ (up : ℕ → UpstreamResp) (fuel offset : ℕ) (acc : List JSValue)
        (msg : String) (reqs : List ℕ),
      fetchAllTS up fuel offset acc = (.httpError msg, reqs) →
      ∃ (pre : List ℕ) (status : ℕ) (body : String) (o : ℕ),
        reqs = pre ++ [o] ∧ up o = .httpErr status body ∧
        (∀ p ∈ pre, ∃ d, up p = .ok d) ∧
        msg = "Webflow API " ++ toString status ++ ": " ++ body) ∧
    (∀ (up : ℕ → UpstreamResp) (fuel offset : ℕ) (acc : List JSValue)
        (msg : String) (reqs : List ℕ),
      fetchAllJS up fuel offset acc = (.httpError msg, reqs) →
      ∃ (pre : List ℕ) (status : ℕ) (body : String) (o : ℕ),
        reqs = pre ++ [o] ∧ up o = .httpErr status body ∧
        (∀ p ∈ pre, ∃ d, up p = .ok d) ∧
        msg = "HTTP error! status: " ++ toString status) ∧
    (∀ (status : ℕ) (body : String),
      (toString status).toList <:+:
        ("Webflow API " ++ toString status ++ ": " ++ body).toList ∧
      body.toList <:+:
        ("Webflow API " ++ toString status ++ ": " ++ body).toList ∧
      (toString status).toList <:+:
        ("HTTP error! status: " ++ toString status).toList) := by
  refine ⟨fun up fuel offset acc status body h => ⟨?_, ?_⟩,
    fetchAllTS_httpError_last, fetchAllJS_httpError_last, fun status body => ⟨?_, ?_, ?_⟩⟩
  · simp [fetchAllTS, h]
  · simp [fetchAllJS, h]
  · exact ⟨"Webflow API ".toList, (": " ++ body).toList, by simp⟩
  · exact ⟨("Webflow API " ++ toString status ++ ": ").toList, [], by simp⟩
  · exact ⟨"HTTP error! status: ".toList, [], by simp⟩

/-- Witness for C8 on a mid-sweep failure: one successful full page at
offset 0, then a 500 at offset 100 — the sweep made requests `[0, 100]`,
the failing one last and after a success, and the failure step fires at the
non-zero offset with a non-empty accumulator. -/
theorem c8_httpError_amended_witness :
    (∃ (pre : List ℕ) (status : ℕ) (body : String) (o : ℕ),
      ([0, 100] : List ℕ) = pre ++ [o] ∧ upMidFail o = .httpErr status body ∧
      (∀ p ∈ pre, ∃ d, upMidFail p = .ok d) ∧
      ("Webflow API " ++ toString 500 ++ ": " ++ "oops" : String) =
        "Webflow API " ++ toString status ++ ": " ++ body) ∧
    fetchAllTS upMidFail 1 100 (pageItems 0 100) =
      (.httpError ("Webflow API " ++ toString 500 ++ ": " ++ "oops"), [100]) ∧
    fetchAllJS upMidFail 1 100 (pageItems 0 100) =
      (.httpError ("HTTP error! status: " ++ toString 500), [100]) :=
  ⟨c8_httpError_amended.2.1 upMidFail 10 0 []
      ("Webflow API " ++ toString 500 ++ ": " ++ "oops") [0, 100] (by rfl),
   (c8_httpError_amended.1 upMidFail 0 100 (pageItems 0 100) 500 "oops" rfl).1,
   (c8_httpError_amended.1 upMidFail 0 100 (pageItems 0 100) 500 "oops" rfl).2⟩

/-! # Claim C1 — the three termination conditions, in order -/

lemma extractTS_mkPageTS (xs : List JSValue) (total : Option ℚ) :
    extractItemsTS (mkPageTS xs total) = .ok (.arr xs) := by
  cases total <;>
    simp [extractItemsTS, mkPageTS, JSValue.prop, JSValue.nullish, getPropD, List.lookup]

lemma extractJS_mkPageJS (xs : List JSValue) (total : Option ℚ) :
    extractItemsJS (mkPageJS xs total) = .ok (.arr xs) := by
  cases total <;>
    simp [extractItemsJS, mkPageJS, JSValue.prop, JSValue.nullish, getPropD, List.lookup,
      jsOr, JSValue.truthy]

lemma paginationTotalTS_mkPageTS_some (xs : List JSValue) (n : ℚ) :
    paginationTotalTS (mkPageTS xs (some n)) = .num n := by
  simp [paginationTotalTS, mkPageTS, getPropD, List.lookup, JSValue.nullish]

lemma paginationTotalTS_mkPageTS_none (xs : List JSValue) :
    paginationTotalTS (mkPageTS xs none) = .undefined := by
  simp [paginationTotalTS, mkPageTS, getPropD, List.lookup, JSValue.nullish]

lemma totalJS_mkPageJS_some (xs : List JSValue) (n : ℚ) :
    getPropD (mkPageJS xs (some n)) "total" = .num n := by
  simp [mkPageJS, getPropD, List.lookup]

lemma totalJS_mkPageJS_none (xs : List JSValue) :
    getPropD (mkPageJS xs none) "total" = .undefined := by
  simp [mkPageJS, getPropD, List.lookup]

lemma totalReached_num (len : ℕ) (n : ℚ) :
    totalReached len (.num n) = decide ((len : ℚ) ≥ n) := by
  simp [totalReached, jsToNumber, JSValue.nullish]

lemma totalReached_undefined (len : ℕ) : totalReached len .undefined = false := rfl

lemma jsLenIsZero_arr (xs : List JSValue) :
    jsLenIsZero (.arr xs) = decide (xs.length = 0) := rfl

lemma jsLenLt_arr (xs : List JSValue) (n : ℕ) :
    jsLenLt (.arr xs) n = decide (xs.length < n) := rfl

lemma jsConcat_arr (acc xs : List JSValue) : jsConcat acc (.arr xs) = acc ++ xs := rfl

/-- C1: after receiving a page with item list `xs` and (optional) total
count, each paginator checks, in order: (a) zero items → stop with what was
collected before the page; (b) a total is present and the count collected so
far (page included) reaches it → stop — even when the page held exactly
`PAGE_SIZE` items; (c) fewer than `PAGE_SIZE` items → stop; otherwise it
advances the offset by `PAGE_SIZE` and issues the next request. -/
theorem c1_termination_order :
    (∀ (up : ℕ → UpstreamResp) (fuel offset : ℕ) (acc xs : List JSValue)
        (total : Option ℚ), up offset = .ok (mkPageTS xs total) →
      (xs = [] → fetchAllTS up (fuel + 1) offset acc = (.ok acc, [offset])) ∧
      (xs ≠ [] → (∃ n, total = some n ∧ ((acc.length + xs.length : ℚ) ≥ n)) →
        fetchAllTS up (fuel + 1) offset acc = (.ok (acc ++ xs), [offset])) ∧
      (xs ≠ [] → (∀ n, total = some n → ((acc.length + xs.length : ℚ) < n)) →
        xs.length < PAGE_SIZE →
        fetchAllTS up (fuel + 1) offset acc = (.ok (acc ++ xs), [offset])) ∧
      (xs ≠ [] → (∀ n, total = some n → ((acc.length + xs.length : ℚ) < n)) →
        PAGE_SIZE ≤ xs.length →
        fetchAllTS up (fuel + 1) offset acc =
          ((fetchAllTS up fuel (offset + PAGE_SIZE) (acc ++ xs)).1,
            offset :: (fetchAllTS up fuel (offset + PAGE_SIZE) (acc ++ xs)).2))) ∧
    (∀ (up : ℕ → UpstreamResp) (fuel offset : ℕ) (acc xs : List JSValue)
        (total : Option ℚ), up offset = .ok (mkPageJS xs total) →
      (xs = [] → fetchAllJS up (fuel + 1) offset acc = (.ok acc, [offset])) ∧
      (xs ≠ [] → (∃ n, total = some n ∧ ((acc.length + xs.length : ℚ) ≥ n)) →
        fetchAllJS up (fuel + 1) offset acc = (.ok (acc ++ xs), [offset])) ∧
      (xs ≠ [] → (∀ n, total = some n → ((acc.length + xs.length : ℚ) < n)) →
        xs.length < PAGE_SIZE →
        fetchAllJS up (fuel + 1) offset acc = (.ok (acc ++ xs), [offset])) ∧
      (xs ≠ [] → (∀ n, total = some n → ((acc.length + xs.length : ℚ) < n)) →
        PAGE_SIZE ≤ xs.length →
        fetchAllJS up (fuel + 1) offset acc =
          ((fetchAllJS up fuel (offset + PAGE_SIZE) (acc ++ xs)).1,
            offset :: (fetchAllJS up fuel (offset + PAGE_SIZE) (acc ++ xs)).2))) := by
  constructor
  · intro up fuel offset acc xs total h
    have hex := extractTS_mkPageTS xs total
    refine ⟨?_, ?_, ?_, ?_⟩
    · rintro rfl
      simp [fetchAllTS, h, hex, jsLenIsZero_arr]
    · rintro hne ⟨n, rfl, hge⟩
      have hz : jsLenIsZero (.arr xs) = false := by
        simp [jsLenIsZero_arr, List.length_eq_zero, hne]
      have ht : totalReached (acc.length + xs.length)
          (paginationTotalTS (mkPageTS xs (some n))) = true := by
        rw [paginationTotalTS_mkPageTS_some, totalReached_num]
        simp only [Nat.cast_add, decide_eq_true_eq]
        exact hge
      simp [fetchAllTS, h, hex, hz, ht, jsConcat_arr]
    · rintro hne hnr hlt
      have hz : jsLenIsZero (.arr xs) = false := by
        simp [jsLenIsZero_arr, List.length_eq_zero, hne]
      have ht : totalReached (acc.length + xs.length)
          (paginationTotalTS (mkPageTS xs total)) = false := by
        cases total with
        | none => rw [paginationTotalTS_mkPageTS_none, totalReached_undefined]
        | some n =>
          rw [paginationTotalTS_mkPageTS_some, totalReached_num]
          simp only [Nat.cast_add, decide_eq_false_iff_not, not_le]
          exact hnr n rfl
      have hl : jsLenLt (.arr xs) PAGE_SIZE = true := by
        simp [jsLenLt_arr, hlt]
      simp [fetchAllTS, h, hex, hz, ht, hl, jsConcat_arr]
    · rintro hne hnr hge
      have hz : jsLenIsZero (.arr xs) = false := by
        simp [jsLenIsZero_arr, List.length_eq_zero, hne]
      have ht : totalReached (acc.length + xs.length)
          (paginationTotalTS (mkPageTS xs total)) = false := by
        cases total with
        | none => rw [paginationTotalTS_mkPageTS_none, totalReached_undefined]
        | some n =>
          rw [paginationTotalTS_mkPageTS_some, totalReached_num]
          simp only [Nat.cast_add, decide_eq_false_iff_not, not_le]
          exact hnr n rfl
      have hl : jsLenLt (.arr xs) PAGE_SIZE = false := by
        simp [jsLenLt_arr, Nat.not_lt.mpr hge]
      simp [fetchAllTS, h, hex, hz, ht, hl, jsConcat_arr]
  · intro up fuel offset acc xs total h
    have hex := extractJS_mkPageJS xs total
    refine ⟨?_, ?_, ?_, ?_⟩
    · rintro rfl
      simp [fetchAllJS, h, hex]
    · rintro hne ⟨n, rfl, hge⟩
      have hz : xs.length ≠ 0 := by
        simpa [List.length_eq_zero] using hne
      have ht : totalReached (acc.length + xs.length)
          (getPropD (mkPageJS xs (some n)) "total") = true := by
        rw [totalJS_mkPageJS_some, totalReached_num]
        simp only [Nat.cast_add, decide_eq_true_eq]
        exact hge
      simp [fetchAllJS, h, hex, hz, ht]
    · rintro hne hnr hlt
      have hz : xs.length ≠ 0 := by
        simpa [List.length_eq_zero] using hne
      have ht : totalReached (acc.length + xs.length)
          (getPropD (mkPageJS xs total) "total") = false := by
        cases total with
        | none => rw [totalJS_mkPageJS_none, totalReached_undefined]
        | some n =>
          rw [totalJS_mkPageJS_some, totalReached_num]
          simp only [Nat.cast_add, decide_eq_false_iff_not, not_le]
          exact hnr n rfl
      simp [fetchAllJS, h, hex, hz, ht, hlt]
    · rintro hne hnr hge
      have hz : xs.length ≠ 0 := by
        simpa [List.length_eq_zero] using hne
      have ht : totalReached (acc.length + xs.length)
          (getPropD (mkPageJS xs total) "total") = false := by
        cases total with
        | none => rw [totalJS_mkPageJS_none, totalReached_undefined]
        | some n =>
          rw [totalJS_mkPageJS_some, totalReached_num]
          simp only [Nat.cast_add, decide_eq_false_iff_not, not_le]
          exact hnr n rfl
      simp [fetchAllJS, h, hex, hz, ht, Nat.not_lt.mpr hge]

/-- Witness for C1, exercising condition (b) on a *full* page: 100 items,
total 100 already reached — the paginator stops. -/
theorem c1_termination_order_witness :
    fetchAllTS (fun _ => .ok (mkPageTS (pageItems 0 100) (some 100))) 1 0 [] =
      (.ok (pageItems 0 100), [0]) :=
  (c1_termination_order.1 (fun _ => .ok (mkPageTS (pageItems 0 100) (some 100)))
      0 0 [] (pageItems 0 100) (some 100) rfl).2.1
    (List.ne_nil_of_length_pos
      (by unfold pageItems; rw [List.length_map, List.length_range']; norm_num))
    ⟨100, rfl, by unfold pageItems; rw [List.length_map, List.length_range']; norm_num⟩

/-! # Claim C7 — order preservation and the 3-page sweep -/

lemma jsConcat_split (acc : List JSValue) (v : JSValue) :
    jsConcat acc v = acc ++ jsConcat [] v := by
  cases v <;> simp [jsConcat]

lemma fetchAllTS_ok_concat (up : ℕ → UpstreamResp) :
    ∀ (fuel offset : ℕ) (acc out : List JSValue) (reqs : List ℕ),
      fetchAllTS up fuel offset acc = (.ok out, reqs) →
      out = acc ++ reqs.flatMap (contribTS up) := by
  intro fuel
  induction fuel with
  | zero =>
    intro offset acc out reqs h
    simp [fetchAllTS] at h
  | succ n ih =>
    intro offset acc out reqs h
    simp only [fetchAllTS] at h
    rcases hup : up offset with ⟨status, body⟩ | ⟨data⟩
    · rw [hup] at h
      simp at h
    · rw [hup] at h
      dsimp only at h
      rcases hex : extractItemsTS data with ⟨e⟩ | ⟨items⟩
      · rw [hex] at h
        simp at h
      · rw [hex] at h
        simp only at h
        split at h
        · injection h with h1 h2
          injection h1 with h1
          subst h1
          subst h2
          simp [contribTS, hup, hex]
          simp_all
        · rename_i hz
          split at h
          · rename_i htot
            injection h with h1 h2
            injection h1 with h1
            subst h1
            subst h2
            rw [jsConcat_split]
            simp [contribTS, hup, hex, hz]
          · split at h
            · rename_i hlen
              injection h with h1 h2
              injection h1 with h1
              subst h1
              subst h2
              rw [jsConcat_split]
              simp [contribTS, hup, hex, hz]
            · rcases hfr : fetchAllTS up n (offset + PAGE_SIZE) (jsConcat acc items) with ⟨o1, l1⟩
              rw [hfr] at h
              injection h with h1 h2
              subst h2
              have hout : o1 = .ok out := h1
              rw [hout] at hfr
              have := ih (offset + PAGE_SIZE) (jsConcat acc items) out l1 hfr
              rw [this, jsConcat_split]
              simp [contribTS, hup, hex, hz, List.append_assoc]

lemma fetchAllJS_ok_concat (up : ℕ → UpstreamResp) :
    ∀ (fuel offset : ℕ) (acc out : List JSValue) (reqs : List ℕ),
      fetchAllJS up fuel offset acc = (.ok out, reqs) →
      out = acc ++ reqs.flatMap (contribJS up) := by
  intro fuel
  induction fuel with
  | zero =>
    intro offset acc out reqs h
    simp [fetchAllJS] at h
  | succ n ih =>
    intro offset acc out reqs h
    simp only [fetchAllJS] at h
    rcases hup : up offset with ⟨status, body⟩ | ⟨data⟩
    · rw [hup] at h
      simp at h
    · rw [hup] at h
      dsimp only at h
      rcases hex : extractItemsJS data with ⟨e⟩ | ⟨items⟩
      · rw [hex] at h
        simp at h
      · rw [hex] at h
        dsimp only at h
        split at h
        · rename_i xs
          split at h
          · rename_i hz
            injection h with h1 h2
            injection h1 with h1
            subst h1
            subst h2
            have : xs = [] := List.length_eq_zero.mp hz
            subst this
            simp [contribJS, hup, hex]
          · rename_i hz
            split at h
            · injection h with h1 h2
              injection h1 with h1
              subst h1
              subst h2
              simp [contribJS, hup, hex]
            · split at h
              · injection h with h1 h2
                injection h1 with h1
                subst h1
                subst h2
                simp [contribJS, hup, hex]
              · rcases hfr : fetchAllJS up n (offset + PAGE_SIZE) (acc ++ xs) with ⟨o1, l1⟩
                rw [hfr] at h
                injection h with h1 h2
                subst h2
                have hout : o1 = .ok out := h1
                rw [hout] at hfr
                have := ih (offset + PAGE_SIZE) (acc ++ xs) out l1 hfr
                rw [this]
                simp [contribJS, hup, hex, List.append_assoc]
        · rename_i hnotarr
          injection h with h1 h2
          injection h1 with h1
          subst h1
          subst h2
          simp only [contribJS, hup, hex, List.flatMap_cons, List.flatMap_nil,
            List.append_nil]

/-- C7: whenever a sweep of either paginator succeeds, its output is exactly
the concatenation, in request order (ascending offsets), of each visited
page's contribution — so inter-page and intra-page order is preserved; and
on the 3-page mock upstream (100, 100, 37 items, no total) the sweep issues
exactly the 3 requests at offsets 0, 100, 200 and returns exactly the 237
items in the received order. -/
theorem c7_order_and_sweep :
    (∀ (up : ℕ → UpstreamResp) (fuel offset : ℕ) (acc out : List JSValue)
        (reqs : List ℕ),
      fetchAllTS up fuel offset acc = (.ok out, reqs) →
      out = acc ++ reqs.flatMap (contribTS up)) ∧
    (∀ (up : ℕ → UpstreamResp) (fuel offset : ℕ) (acc out : List JSValue)
        (reqs : List ℕ),
      fetchAllJS up fuel offset acc = (.ok out, reqs) →
      out = acc ++ reqs.flatMap (contribJS up)) ∧
    fetchAllTS upstream3 10 0 [] = (.ok (pageItems 0 237), [0, 100, 200]) :=
  ⟨fetchAllTS_ok_concat, fetchAllJS_ok_concat, by rfl⟩

/-- Witness for C7: the order theorem applied to the concrete 3-page run. -/
theorem c7_order_and_sweep_witness :
    pageItems 0 237 = [] ++ [0, 100, 200].flatMap (contribTS upstream3) :=
  c7_order_and_sweep.1 upstream3 10 0 [] (pageItems 0 237) [0, 100, 200] (by rfl)

/-! # Sanity checks (spec §8 anchors) -/

example : parseTags (.str "a, b ,c") = .arr [.str "a", .str "b", .str "c"] := by rfl
example : parseTags .undefined = .arr [] := by rfl
example : stripHtml (.str "<p>Hi <b>there</b></p>") = .ok (.str "Hi there") := by rfl
example : parseCoordinates (.str "40.7,-74.0") =
    .arr [.num (decValue false 40 7 1 0), .num (decValue true 74 0 1 0)] := by rfl
example : decValue false 40 7 1 0 = (40.7 : ℚ) := by norm_num [decValue]
example : decValue true 74 0 1 0 = (-74.0 : ℚ) := by norm_num [decValue]
example : parseCoordinates (.str "somewhere") = .null := by rfl
example : geocodeLocation (.str "Texas") = .arr [.num (31.9686 : ℚ), .num (-99.9018 : ℚ)] := by rfl
